import Mathlib

/-!
Shallow embedding of the payment lifecycle subsystem of the repository
(src/payment_service.py, with the data model of src/models.py and the
configuration of src/config.py).

Modelling conventions:
* Monetary amounts are exact rationals (ℚ); Python round(x, 2) is embedded
  as rounding to the nearest multiple of 1/100 with ties to even (Python's
  banker's rounding), and Python int(x) as truncation toward zero.
* The SQLAlchemy session is a `Store` value (lists of Payment and Conversion
  rows); each operation returns the post-commit store together with either a
  result or the exception it raised.
* External provider calls (the Stripe SDK, the Coinbase Commerce SDK, JSON
  parsing and webhook-signature verification) are oracles collected in an
  `Env` record: each oracle gives the outcome the external library would
  return for the given arguments.
* Timestamps are natural numbers (`now` is passed explicitly where the code
  calls datetime.utcnow()).
* Exceptions: fastapi.HTTPException is `AppError.http code detail`; an
  uncaught Python ValueError is `AppError.valueError`; an exception raised by
  a provider SDK call is `AppError.providerError`.
-/

namespace PaymentModel

/-- Python round-half-even of a rational to an integer (banker's rounding,
the semantics of Python's built-in round). -/
def roundHalfEven (q : ℚ) : ℤ :=
  if Int.fract q < 1/2 then ⌊q⌋
  else if 1/2 < Int.fract q then ⌊q⌋ + 1
  else if Even ⌊q⌋ then ⌊q⌋ else ⌊q⌋ + 1

/-- Python round(x, 2): round to the nearest multiple of 1/100, ties to even. -/
def round2 (q : ℚ) : ℚ := (roundHalfEven (q * 100) : ℚ) / 100

/-- Python int(x): truncation toward zero. -/
def ratTrunc (q : ℚ) : ℤ := if 0 ≤ q then ⌊q⌋ else -⌊-q⌋

/-- IEEE-754 binary64 rounding of an exact real (here rational) value:
round to nearest, ties to even, on the 53-bit-significand grid of the
value's binade (Int.log 2 q is the binade exponent, and roundHalfEven is
exactly round-to-nearest-ties-even on the scaled significand integers,
where an even integer is an even significand).  Python floats are binary64,
so every float the source manipulates is fl53 of the exact value that
produced it.  Exponent-range effects (overflow, subnormals) are not
modelled; they are unreachable at the monetary magnitudes involved. -/
def fl53 (q : ℚ) : ℚ :=
  if q = 0 then 0
  else if 0 < q then
    (roundHalfEven (q * 2 ^ ((52 : ℤ) - Int.log 2 q)) : ℚ) * 2 ^ (Int.log 2 q - 52)
  else
    -((roundHalfEven (-q * 2 ^ ((52 : ℤ) - Int.log 2 (-q))) : ℚ)
      * 2 ^ (Int.log 2 (-q) - 52))

/-- The configuration fields of src/config.py that the payment subsystem
reads (Settings).  coinbase_api_key is Optional: payment_clients['coinbase']
is None exactly when it is unset. -/
structure Settings where
  free_page_limit : Nat
  price_per_page : ℚ
  coinbase_api_key : Option String
  stripe_webhook_secret : String
  coinbase_webhook_secret : String
  stripe_public_key : String
deriving DecidableEq

/-- models.PaymentStatus. -/
inductive PaymentStatus where
  | pending
  | completed
  | failed
  | refunded
  | expired
deriving DecidableEq

/-- models.PaymentMethod. -/
inductive PaymentMethod where
  | credit_card
  | usdt
  | btc
  | eth
  | other_crypto
deriving DecidableEq

/-- PaymentMethod(value): Python enum lookup by value; raises ValueError
(modelled as none) for a string that is not a member value. -/
def PaymentMethod.fromString : String → Option PaymentMethod
  | "credit_card" => some .credit_card
  | "usdt" => some .usdt
  | "bitcoin" => some .btc
  | "ethereum" => some .eth
  | "other_crypto" => some .other_crypto
  | _ => none

/-- models.Conversion, restricted to the columns the payment subsystem
reads or writes (id, page_count, is_paid; original_filename only feeds
provider-facing description strings).  The assignment
conversion.updated_at in _process_successful_payment sets an attribute that
is not a mapped column of Conversion, so it is never persisted and is not
modelled. -/
structure Conversion where
  id : Nat
  original_filename : String
  page_count : Nat
  is_paid : Bool
deriving DecidableEq

/-- models.Payment, restricted to the columns payment_service.py touches. -/
structure Payment where
  id : Nat
  user_id : Option Nat
  conversion_id : Nat
  payment_method : PaymentMethod
  amount : ℚ
  amount_usd : ℚ
  currency : String
  status : PaymentStatus
  provider : Option String
  provider_payment_id : Option String
  provider_data : Option String
  crypto_address : Option String
  crypto_amount : Option ℚ
  created_at : Nat
  updated_at : Nat
  paid_at : Option Nat
  expires_at : Option Nat
deriving DecidableEq

/-- The transactional record store: the Payment and Conversion tables. -/
structure Store where
  payments : List Payment
  conversions : List Conversion
deriving DecidableEq

/-- Exceptions as they cross the service boundary. -/
inductive AppError where
  | http (code : Nat) (detail : String)
  | valueError (msg : String)
  | providerError (msg : String)
deriving DecidableEq

/-- str(e) for an exception, as interpolated into wrapper messages. -/
def AppError.message : AppError → String
  | .http code detail => toString code ++ ": " ++ detail
  | .valueError msg => msg
  | .providerError msg => msg

/-- PaymentService.calculate_price: 0 up to the free page limit, otherwise
the extra pages times the per-page price, rounded to 2 decimal places. -/
def calculate_price (s : Settings) (page_count : Nat) : ℚ :=
  if page_count ≤ s.free_page_limit then 0
  else round2 (((page_count - s.free_page_limit : Nat) : ℚ) * s.price_per_page)

/-- The amount-in-cents the card adapter sends to the provider:
int(payment.amount * 100) in _process_credit_card_payment, under float
semantics — payment.amount is a Python float, the product amount * 100 is
computed in binary64 (one fl53 rounding), and int() truncates the result
toward zero.  For an amount whose product with 100 is exactly
representable this coincides with exact truncation, but it can come out
one cent low (see the C9 theorem). -/
def stripeAmountCents (amount : ℚ) : ℤ := ratTrunc (fl53 (amount * 100))

/-- Float semantics of PaymentService.calculate_price: the same formula as
calculate_price with each operation rounded as the source's Python floats
round it — the configured per-page price is already a binary64 value, the
product extra_pages * price_per_page is computed in binary64, and Python's
round(x, 2) produces the binary64 value nearest the exact two-decimal
banker's rounding of x.  calculate_price is the exact-decimal idealization
of this function; they agree whenever every intermediate value is exactly
representable, and differ on configurations like price_per_page = 0.29. -/
def calculate_price_float (s : Settings) (page_count : Nat) : ℚ :=
  if page_count ≤ s.free_page_limit then 0
  else fl53 (round2 (fl53 (((page_count - s.free_page_limit : Nat) : ℚ)
    * s.price_per_page)))

/-- The binary64 value nearest 0.29 (what Python stores for the literal
0.29): 5224175567749775 / 2^54 = 0.28999999999999998... -/
def float0_29 : ℚ := 5224175567749775 / 2 ^ 54

/-- A configuration whose per-page price is the float 0.29 — a legal
Settings value (price_per_page is a parsed float in src/config.py). -/
def float29Settings : Settings :=
  { free_page_limit := 50
    price_per_page := fl53 (29 / 100)
    coinbase_api_key := some "cb_key"
    stripe_webhook_secret := "whsec"
    coinbase_webhook_secret := "cbsec"
    stripe_public_key := "pk_test" }

/-- A Stripe PaymentIntent as returned by PaymentIntent.create. -/
structure StripeIntent where
  id : String
  client_secret : String
  raw : String
deriving DecidableEq

/-- Outcome of a stripe.PaymentIntent.create call. -/
inductive StripeCreateResult where
  | ok (intent : StripeIntent)
  | exc (msg : String)
deriving DecidableEq

/-- A Coinbase Commerce charge as returned by charge.create. -/
structure CoinbaseCharge where
  id : String
  hosted_url : String
  bitcoin_address : Option String
  ethereum_address : Option String
  local_amount : ℚ
  raw : String
deriving DecidableEq

/-- Outcome of a coinbase charge.create call. -/
inductive CoinbaseCreateResult where
  | ok (charge : CoinbaseCharge)
  | exc (msg : String)
deriving DecidableEq

/-- A provider webhook event after parsing: its type string, the internal
payment identifier embedded in its metadata (metadata.get('payment_id'),
None when absent), and the raw event object snapshot. -/
structure WebhookEvent where
  type : String
  payment_id : Option Nat
  raw : String
deriving DecidableEq

/-- Outcome of stripe.Webhook.construct_event(payload, sig, secret):
a parsed event, a ValueError for a malformed payload, or a
SignatureVerificationError. -/
inductive StripeEventParse where
  | ok (event : WebhookEvent)
  | valueErr (msg : String)
  | sigErr (msg : String)
deriving DecidableEq

/-- json.loads(payload) for the coinbase path: the decoded body exposes
request_data.get('event'). -/
structure CoinbaseBody where
  event : Option WebhookEvent
deriving DecidableEq

/-- A retrieved provider object during the status poll. -/
structure RetrievedCharge where
  status : String
  raw : String
deriving DecidableEq

/-- Oracles for every external call the subsystem makes.  Each field gives
the outcome the external library returns for the given arguments. -/
structure Env where
  stripe_create : ℤ → String → StripeCreateResult
  coinbase_create : ℚ → String → CoinbaseCreateResult
  stripe_construct_event : String → Option String → String → StripeEventParse
  coinbase_json : String → Option CoinbaseBody
  coinbase_verify : String → Option String → String → Bool
  stripe_retrieve : Option String → Except String RetrievedCharge
  coinbase_retrieve : Option String → Except String RetrievedCharge

/-- Return value of create_payment_intent (one of the three result dicts). -/
inductive IntentResult where
  | noPayment
  | card (payment_id : Nat) (client_secret : String) (publishable_key : String)
      (amount : ℚ) (currency : String) (stat : PaymentStatus)
  | crypto (payment_id : Nat) (checkout_url : String) (crypto_address : Option String)
      (crypto_amount : Option ℚ) (currency : String) (stat : PaymentStatus)
      (expires_at : Option Nat)
deriving DecidableEq

/-- Return value of _process_successful_payment. -/
structure ReconResult where
  payment_id : Nat
  conversion_id : Nat
  paid : Bool
deriving DecidableEq

/-- Return value of handle_webhook: a reconciliation result or a bare
acknowledgment of an event type that triggers no mutation. -/
inductive WebhookResult where
  | recon (r : ReconResult)
  | ack (event_type : String)
deriving DecidableEq

/-- Return value of get_payment_status. -/
inductive StatusResult where
  | completedLocal (payment_id : Nat) (conversion_id : Nat) (amount : ℚ)
      (currency : String) (paid_at : Option Nat)
  | recon (r : ReconResult)
  | current (stat : PaymentStatus) (paid : Bool) (payment_id : Nat)
      (conversion_id : Nat) (amount : ℚ) (currency : String) (expires_at : Option Nat)
deriving DecidableEq

/-- The ORM row update for the payment with the given id (the session holds
one row per primary key; an update mutates that row in place). -/
def updatePayments (l : List Payment) (pid : Nat) (f : Payment → Payment) : List Payment :=
  l.map (fun p => if p.id = pid then f p else p)

/-- The ORM row update for the conversion with the given id. -/
def updateConversions (l : List Conversion) (cid : Nat) (f : Conversion → Conversion) :
    List Conversion :=
  l.map (fun c => if c.id = cid then f c else c)

/-- PaymentService._process_successful_payment.  No terminal-state guard is
present in the source: the payment found by id is unconditionally set to
COMPLETED with fresh paid_at/updated_at, provider_data is overwritten when
one is supplied, and the linked conversion (when it exists) is marked paid;
a missing conversion is silently skipped. -/
def _process_successful_payment (st : Store) (payment_id : Option Nat)
    (provider_data : Option String) (now : Nat) : Store × Except AppError ReconResult :=
  match payment_id with
  | none => (st, .error (.http 400 "No payment ID provided"))
  | some pid =>
    match st.payments.find? (fun p => p.id = pid) with
    | none => (st, .error (.http 404 "Payment not found"))
    | some payment =>
      let payments := updatePayments st.payments pid (fun p =>
        { p with
          status := .completed
          paid_at := some now
          updated_at := now
          provider_data := match provider_data with
            | some d => some d
            | none => p.provider_data })
      let conversions := updateConversions st.conversions payment.conversion_id
        (fun c => { c with is_paid := true })
      (⟨payments, conversions⟩,
        .ok ⟨pid, payment.conversion_id, true⟩)

/-- PaymentService._process_credit_card_payment: sends the truncated
cent amount to the provider; on success records provider name, external
reference and raw payload on the payment row; a provider exception is
logged and re-raised without mutation. -/
def _process_credit_card_payment (s : Settings) (env : Env) (st : Store)
    (payment : Payment) : Store × Except AppError IntentResult :=
  match env.stripe_create (stripeAmountCents payment.amount) payment.currency.toLower with
  | .exc msg => (st, .error (.providerError msg))
  | .ok intent =>
    let payments := updatePayments st.payments payment.id (fun p =>
      { p with
        provider := some "stripe"
        provider_payment_id := some intent.id
        provider_data := some intent.raw })
    (⟨payments, st.conversions⟩,
      .ok (.card payment.id intent.client_secret s.stripe_public_key
        payment.amount payment.currency payment.status))

/-- PaymentService._process_crypto_payment: raises HTTPException 500 when no
coinbase client is configured; otherwise creates a fixed-price charge,
records provider name, external reference, receiving address
(bitcoin or ethereum), crypto amount and raw payload; a provider exception
is logged and re-raised without mutation. -/
def _process_crypto_payment (s : Settings) (env : Env) (st : Store)
    (payment : Payment) : Store × Except AppError IntentResult :=
  match s.coinbase_api_key with
  | none => (st, .error (.http 500 "Cryptocurrency payments are not configured"))
  | some _ =>
    match env.coinbase_create payment.amount payment.currency with
    | .exc msg => (st, .error (.providerError msg))
    | .ok charge =>
      let address := charge.bitcoin_address.orElse (fun _ => charge.ethereum_address)
      let payments := updatePayments st.payments payment.id (fun p =>
        { p with
          provider := some "coinbase"
          provider_payment_id := some charge.id
          crypto_address := address
          crypto_amount := some charge.local_amount
          provider_data := some charge.raw })
      (⟨payments, st.conversions⟩,
        .ok (.crypto payment.id charge.hosted_url address (some charge.local_amount)
          payment.currency payment.status payment.expires_at))

/-- PaymentService.create_payment_intent.  Rejects an already-paid
conversion; short-circuits a non-positive amount by marking the conversion
paid with no Payment row; otherwise persists a PENDING payment (the enum
lookup PaymentMethod(payment_method) raises an uncaught ValueError first
for an invalid method string, before the row is added) and dispatches to
the adapter; any exception from the dispatch marks the payment FAILED,
stores the error context, and is re-surfaced as HTTPException 500.  The
else-branch raising HTTPException 400 for an unsupported method is
unreachable once the enum lookup has succeeded, because the five enum
members are exhaustively dispatched.  new_pid is the primary key the store
assigns to the inserted row. -/
def create_payment_intent (s : Settings) (env : Env) (st : Store)
    (conversion : Conversion) (payment_method : String) (user_id : Option Nat)
    (now : Nat) (new_pid : Nat) : Store × Except AppError IntentResult :=
  if conversion.is_paid then
    (st, .error (.http 400 "This conversion has already been paid for"))
  else
    let amount := calculate_price s conversion.page_count
    if amount ≤ 0 then
      (⟨st.payments, updateConversions st.conversions conversion.id
          (fun c => { c with is_paid := true })⟩,
        .ok .noPayment)
    else
      match PaymentMethod.fromString payment_method with
      | none =>
        (st, .error (.valueError
          ("'" ++ payment_method ++ "' is not a valid PaymentMethod")))
      | some pm =>
        let payment : Payment :=
          { id := new_pid
            user_id := user_id
            conversion_id := conversion.id
            payment_method := pm
            amount := amount
            amount_usd := amount
            currency := "USD"
            status := .pending
            provider := none
            provider_payment_id := none
            provider_data := none
            crypto_address := none
            crypto_amount := none
            created_at := now
            updated_at := now
            paid_at := none
            expires_at := some (now + 24 * 3600) }
        let st1 : Store := ⟨st.payments ++ [payment], st.conversions⟩
        let dispatched : Store × Except AppError IntentResult :=
          match pm with
          | .credit_card => _process_credit_card_payment s env st1 payment
          | _ => _process_crypto_payment s env st1 payment
        match dispatched with
        | (st2, .ok r) => (st2, .ok r)
        | (st2, .error e) =>
          (⟨updatePayments st2.payments new_pid (fun p =>
              { p with
                status := .failed
                provider_data := some ("error: " ++ e.message) }),
            st2.conversions⟩,
            .error (.http 500 ("Error processing payment: " ++ e.message)))

/-- Lifts a reconciliation outcome into a webhook outcome (the handlers
return the reconciliation dict directly on success and let its exceptions
propagate). -/
def reconToWebhook : Store × Except AppError ReconResult →
    Store × Except AppError WebhookResult
  | (st, .ok r) => (st, .ok (.recon r))
  | (st, .error e) => (st, .error e)

/-- PaymentService._handle_stripe_webhook: construct_event failures map to
HTTPException 400; only a payment_intent.succeeded event triggers
reconciliation, every other event type is acknowledged without mutation. -/
def _handle_stripe_webhook (s : Settings) (env : Env) (st : Store)
    (payload : String) (signature : Option String) (now : Nat) :
    Store × Except AppError WebhookResult :=
  match env.stripe_construct_event payload signature s.stripe_webhook_secret with
  | .valueErr msg => (st, .error (.http 400 ("Invalid payload: " ++ msg)))
  | .sigErr msg => (st, .error (.http 400 ("Invalid signature: " ++ msg)))
  | .ok event =>
    if event.type = "payment_intent.succeeded" then
      reconToWebhook (_process_successful_payment st event.payment_id (some event.raw) now)
    else
      (st, .ok (.ack event.type))

/-- PaymentService._handle_coinbase_webhook: json.loads runs first (a decode
failure is HTTPException 400), then signature verification (failure is
HTTPException 400), then a missing event is rejected; only charge:confirmed
and charge:resolved trigger reconciliation. -/
def _handle_coinbase_webhook (s : Settings) (env : Env) (st : Store)
    (payload : String) (signature : Option String) (now : Nat) :
    Store × Except AppError WebhookResult :=
  match env.coinbase_json payload with
  | none => (st, .error (.http 400 "Invalid JSON payload"))
  | some body =>
    if env.coinbase_verify payload signature s.coinbase_webhook_secret then
      match body.event with
      | none => (st, .error (.http 400 "No event in payload"))
      | some event =>
        if event.type = "charge:confirmed" ∨ event.type = "charge:resolved" then
          reconToWebhook (_process_successful_payment st event.payment_id (some event.raw) now)
        else
          (st, .ok (.ack event.type))
    else
      (st, .error (.http 400 "Webhook verification failed"))

/-- The boundary except-clause of handle_webhook: any exception raised while
handling an event is logged and re-raised as HTTPException 400. -/
def wrapWebhookError : Store × Except AppError WebhookResult →
    Store × Except AppError WebhookResult
  | (st, .ok r) => (st, .ok r)
  | (st, .error e) =>
    (st, .error (.http 400 ("Error processing webhook: " ++ e.message)))

/-- PaymentService.handle_webhook: routes on the provider name, and wraps
any exception raised during handling into HTTPException 400. -/
def handle_webhook (s : Settings) (env : Env) (st : Store) (provider : String)
    (payload : String) (signature : Option String) (now : Nat) :
    Store × Except AppError WebhookResult :=
  wrapWebhookError
    (if provider = "stripe" then
      _handle_stripe_webhook s env st payload signature now
    else if provider = "coinbase" then
      _handle_coinbase_webhook s env st payload signature now
    else
      (st, .error (.http 400 ("Unsupported payment provider: " ++ provider))))

/-- PaymentService.get_payment_status: a COMPLETED payment is answered from
local state; a non-completed payment triggers a best-effort provider poll
(any poll exception is logged and swallowed), reconciling on a provider
success state, otherwise the last known local status is returned. -/
def get_payment_status (s : Settings) (env : Env) (st : Store)
    (payment_id : Nat) (now : Nat) : Store × Except AppError StatusResult :=
  match st.payments.find? (fun p => p.id = payment_id) with
  | none => (st, .error (.http 404 "Payment not found"))
  | some payment =>
    if payment.status = .completed then
      (st, .ok (.completedLocal payment.id payment.conversion_id payment.amount
        payment.currency payment.paid_at))
    else
      let localStatus : Store × Except AppError StatusResult :=
        (st, .ok (.current payment.status (payment.status = .completed) payment.id
          payment.conversion_id payment.amount payment.currency payment.expires_at))
      match payment.provider with
      | some "stripe" =>
        (match env.stripe_retrieve payment.provider_payment_id with
         | .error _ => localStatus
         | .ok intent =>
           if intent.status = "succeeded" then
             match _process_successful_payment st (some payment_id) (some intent.raw) now with
             | (st2, .ok r) => (st2, .ok (.recon r))
             | (_, .error _) => localStatus
           else
             localStatus)
      | some "coinbase" =>
        (match s.coinbase_api_key with
         | none => localStatus
         | some _ =>
           match env.coinbase_retrieve payment.provider_payment_id with
           | .error _ => localStatus
           | .ok charge =>
             if charge.status = "CONFIRMED" ∨ charge.status = "RESOLVED" then
               match _process_successful_payment st (some payment_id) (some charge.raw) now with
               | (st2, .ok r) => (st2, .ok (.recon r))
               | (_, .error _) => localStatus
             else
               localStatus)
      | _ => localStatus

/-! ### Store helper lemmas -/

theorem updatePayments_frozen (l : List Payment) (pid : Nat) (f : Payment → Payment)
    (h : ∀ p ∈ l, p.id ≠ pid) : updatePayments l pid f = l := by
  induction l with
  | nil => rfl
  | cons a t ih =>
    have ha : a.id ≠ pid := h a (List.mem_cons_self a t)
    have ht := ih (fun p hp => h p (List.mem_cons_of_mem a hp))
    simp only [updatePayments, List.map_cons, if_neg ha] at *
    rw [ht]

theorem updateConversions_frozen (l : List Conversion) (cid : Nat)
    (f : Conversion → Conversion) (h : ∀ c ∈ l, c.id ≠ cid) :
    updateConversions l cid f = l := by
  induction l with
  | nil => rfl
  | cons a t ih =>
    have ha : a.id ≠ cid := h a (List.mem_cons_self a t)
    have ht := ih (fun c hc => h c (List.mem_cons_of_mem a hc))
    simp only [updateConversions, List.map_cons, if_neg ha] at *
    rw [ht]

theorem updatePayments_append (base : List Payment) (payment : Payment) (pid : Nat)
    (f : Payment → Payment) (hid : payment.id = pid)
    (hfresh : ∀ q ∈ base, q.id ≠ pid) :
    updatePayments (base ++ [payment]) pid f = base ++ [f payment] := by
  have hbase := updatePayments_frozen base pid f hfresh
  simp only [updatePayments, List.map_append] at *
  rw [hbase]
  simp [hid]

/-! ### Concrete fixtures used by witnesses and counterexamples -/

/-- The default pricing configuration of src/config.py (price_per_page 0.10,
free_page_limit 50), with a coinbase credential present. -/
def pricingExample : Settings :=
  { free_page_limit := 50
    price_per_page := 1/10
    coinbase_api_key := some "cb_key"
    stripe_webhook_secret := "whsec"
    coinbase_webhook_secret := "cbsec"
    stripe_public_key := "pk_test" }

/-- Same configuration with no coinbase credential configured. -/
def noCryptoSettings : Settings :=
  { pricingExample with coinbase_api_key := none }

/-- An environment whose every external call fails. -/
def envNull : Env :=
  { stripe_create := fun _ _ => .exc "stripe down"
    coinbase_create := fun _ _ => .exc "coinbase down"
    stripe_construct_event := fun _ _ _ => .sigErr "bad signature"
    coinbase_json := fun _ => none
    coinbase_verify := fun _ _ _ => false
    stripe_retrieve := fun _ => .error "stripe down"
    coinbase_retrieve := fun _ => .error "coinbase down" }

/-- An environment delivering a validly signed payment_intent.succeeded
event whose metadata references internal payment id 1. -/
def envStripeEvent1 : Env :=
  { envNull with
    stripe_construct_event := fun _ _ _ =>
      .ok ⟨"payment_intent.succeeded", some 1, "evt_2"⟩ }

/-- An unpaid 80-page conversion. -/
def conv9 : Conversion := ⟨9, "big.docx", 80, false⟩

/-- A store holding only conv9 and no payments. -/
def storeConv9 : Store := ⟨[], [conv9]⟩

/-- A COMPLETED payment for conversion 7, paid at time 5 with an original
provider snapshot. -/
def paymentCompleted1 : Payment :=
  { id := 1
    user_id := none
    conversion_id := 7
    payment_method := .credit_card
    amount := 3
    amount_usd := 3
    currency := "USD"
    status := .completed
    provider := some "stripe"
    provider_payment_id := some "pi_1"
    provider_data := some "orig"
    crypto_address := none
    crypto_amount := none
    created_at := 0
    updated_at := 5
    paid_at := some 5
    expires_at := some 86400 }

/-- An already-paid conversion with id 7. -/
def conv7 : Conversion := ⟨7, "doc.docx", 80, true⟩

/-- A store where payment 1 is already COMPLETED and conversion 7 paid. -/
def storeCompleted : Store := ⟨[paymentCompleted1], [conv7]⟩

/-! ### Arithmetic lemmas about the pricing embedding -/

theorem roundHalfEven_intCast (m : ℤ) : roundHalfEven (m : ℚ) = m := by
  unfold roundHalfEven
  rw [Int.fract_intCast, Int.floor_intCast]
  norm_num

theorem round2_intCast (m : ℤ) : round2 (m : ℚ) = (m : ℚ) := by
  unfold round2
  have h : ((m : ℚ) * 100) = ((m * 100 : ℤ) : ℚ) := by push_cast; ring
  rw [h, roundHalfEven_intCast]
  push_cast
  ring

/-- Computation rule for roundHalfEven when the fractional part is below
one half. -/
theorem roundHalfEven_eq_floor (q : ℚ) (f : ℤ) (h1 : ⌊q⌋ = f)
    (h2 : Int.fract q < 1/2) : roundHalfEven q = f := by
  unfold roundHalfEven
  rw [if_pos h2, h1]

/-- Computation rule for roundHalfEven when the fractional part is above
one half. -/
theorem roundHalfEven_eq_floor_add_one (q : ℚ) (f : ℤ) (h1 : ⌊q⌋ = f)
    (h2 : 1/2 < Int.fract q) : roundHalfEven q = f + 1 := by
  unfold roundHalfEven
  rw [if_neg (not_lt.mpr (le_of_lt h2)), if_pos h2, h1]

/-- The binade exponent is characterized by its defining bounds. -/
theorem int_log2_eq (q : ℚ) (e : ℤ) (hq : 0 < q)
    (hlo : (2:ℚ) ^ e ≤ q) (hhi : q < (2:ℚ) ^ (e + 1)) : Int.log 2 q = e := by
  have hb : 1 < (2:ℕ) := one_lt_two
  have hcast : ((2:ℕ):ℚ) = (2:ℚ) := by norm_num
  have h1 : e ≤ Int.log 2 q := by
    rw [← Int.zpow_le_iff_le_log hb hq, hcast]
    exact hlo
  have h2 : Int.log 2 q < e + 1 := by
    rw [← Int.lt_zpow_iff_log_lt hb hq, hcast]
    exact hhi
  omega

/-- Computation rule for fl53 at a positive argument with known binade and
rounded significand. -/
theorem fl53_eq_of_bounds (q : ℚ) (e m : ℤ) (hq : 0 < q)
    (hlo : (2:ℚ) ^ e ≤ q) (hhi : q < (2:ℚ) ^ (e + 1))
    (hm : roundHalfEven (q * 2 ^ ((52:ℤ) - e)) = m) :
    fl53 q = (m : ℚ) * 2 ^ (e - 52) := by
  unfold fl53
  rw [if_neg (ne_of_gt hq), if_pos hq, int_log2_eq q e hq hlo hhi, hm]

/-- The binary64 rounding of 0.29 is float0_29, one ulp below 0.29. -/
theorem fl53_29_100 : fl53 (29/100) = float0_29 := by
  have harg : ((29/100 : ℚ) * 2 ^ ((52:ℤ) - (-2))) = 522417556774977536/100 := by
    norm_num
  have hf : ⌊(522417556774977536/100 : ℚ)⌋ = 5224175567749775 := by
    norm_num [Int.floor_eq_iff]
  have hm : roundHalfEven ((29/100 : ℚ) * 2 ^ ((52:ℤ) - (-2))) = 5224175567749775 := by
    rw [harg]
    exact roundHalfEven_eq_floor _ _ hf (by rw [Int.fract, hf]; norm_num)
  have h := fl53_eq_of_bounds (29/100) (-2) 5224175567749775 (by norm_num)
    (by norm_num) (by norm_num) hm
  rw [h]
  unfold float0_29
  norm_num

/-- float0_29 is a binary64 value: fl53 fixes it. -/
theorem fl53_float0_29 : fl53 float0_29 = float0_29 := by
  have harg : float0_29 * 2 ^ ((52:ℤ) - (-2)) = ((5224175567749775 : ℤ) : ℚ) := by
    unfold float0_29
    push_cast
    norm_num
  have hm : roundHalfEven (float0_29 * 2 ^ ((52:ℤ) - (-2))) = 5224175567749775 := by
    rw [harg, roundHalfEven_intCast]
  have h := fl53_eq_of_bounds float0_29 (-2) 5224175567749775
    (by unfold float0_29; norm_num) (by unfold float0_29; norm_num)
    (by unfold float0_29; norm_num) hm
  rw [h]
  unfold float0_29
  norm_num

/-- Python round(float0_29, 2) recovers 0.29 exactly: the two-decimal
value of the stored float is 0.29. -/
theorem round2_float0_29 : round2 float0_29 = 29/100 := by
  unfold round2
  have harg : float0_29 * 100 = 522417556774977500/18014398509481984 := by
    unfold float0_29
    norm_num
  have hf : ⌊(522417556774977500/18014398509481984 : ℚ)⌋ = 28 := by
    norm_num [Int.floor_eq_iff]
  have hm : roundHalfEven (float0_29 * 100) = 29 := by
    rw [harg,
      roundHalfEven_eq_floor_add_one _ 28 hf (by rw [Int.fract, hf]; norm_num)]
    norm_num
  rw [hm]
  norm_num

/-- The binary64 product float0_29 * 100 rounds BELOW 29: the exact product
is 36/2^54 short of 29, more than half an ulp (ulp = 64/2^54 at 29), so
round-to-nearest lands on the double 8162774324609023/2^48 = 28.999...96. -/
theorem fl53_float0_29_mul_100 :
    fl53 (float0_29 * 100) = 8162774324609023 / 2 ^ 48 := by
  have harg : float0_29 * 100 * 2 ^ ((52:ℤ) - 4) = 522417556774977500/64 := by
    unfold float0_29
    norm_num
  have hf : ⌊(522417556774977500/64 : ℚ)⌋ = 8162774324609023 := by
    norm_num [Int.floor_eq_iff]
  have hm : roundHalfEven (float0_29 * 100 * 2 ^ ((52:ℤ) - 4))
      = 8162774324609023 := by
    rw [harg]
    exact roundHalfEven_eq_floor _ _ hf (by rw [Int.fract, hf]; norm_num)
  have h := fl53_eq_of_bounds (float0_29 * 100) 4 8162774324609023
    (by unfold float0_29; norm_num) (by unfold float0_29; norm_num)
    (by unfold float0_29; norm_num) hm
  rw [h]
  norm_num

/-- Truncating the rounded-down product toward zero loses the cent:
int(28.999...96) = 28. -/
theorem ratTrunc_float_product : ratTrunc (8162774324609023 / 2 ^ 48 : ℚ) = 28 := by
  unfold ratTrunc
  rw [if_pos (by norm_num)]
  norm_num [Int.floor_eq_iff]

/-- With per-page price float(0.29) and 51 pages, the float pricing
pipeline stores exactly the binary64 value of 0.29 as the amount. -/
theorem calculate_price_float_eval :
    calculate_price_float float29Settings 51 = float0_29 := by
  unfold calculate_price_float
  rw [if_neg (by norm_num [float29Settings])]
  have hone : ((51 - float29Settings.free_page_limit : Nat) : ℚ) = 1 := by
    norm_num [float29Settings]
  have hpp : float29Settings.price_per_page = fl53 (29/100) := rfl
  rw [hone, one_mul, hpp, fl53_29_100, fl53_float0_29, round2_float0_29,
    fl53_29_100]

/-- With the default configuration (50 free pages, 0.10 per page), an
80-page conversion prices at exactly 3. -/
theorem calculate_price_eval_80 (s : Settings) (hf : s.free_page_limit = 50)
    (hp : s.price_per_page = 1/10) : calculate_price s 80 = 3 := by
  unfold calculate_price
  rw [hf, hp]
  norm_num
  have h1 : (3 : ℚ) = ((3 : ℤ) : ℚ) := by norm_num
  rw [h1, round2_intCast]

/-! ### Claim theorems -/

/-- C4: for every non-negative usage count, the pricing function returns 0
when the count is at or below the free threshold, and otherwise returns
(count - threshold) * unitPrice rounded to 2 decimal places; it is a pure,
deterministic function of its input (it is embedded as a Lean function),
and with freeThreshold 50 and unitPrice 0.10 a count of 80 yields exactly
3.00. -/
theorem C4_calculate_price_contract (s : Settings) (n : Nat) :
    (n ≤ s.free_page_limit → calculate_price s n = 0) ∧
    (s.free_page_limit < n →
      calculate_price s n
        = round2 (((n - s.free_page_limit : Nat) : ℚ) * s.price_per_page)) ∧
    calculate_price pricingExample 80 = 3 := by
  refine ⟨fun h => by simp [calculate_price, h], fun h => ?_, ?_⟩
  · unfold calculate_price
    rw [if_neg (Nat.not_le.mpr h)]
  · exact calculate_price_eval_80 pricingExample rfl rfl

/-- Witness for C4: both branch hypotheses discharged at concrete counts
(30 pages free, 80 pages priced by the rounded linear formula). -/
theorem C4_calculate_price_contract_witness :
    calculate_price pricingExample 30 = 0 ∧
    calculate_price pricingExample 80
      = round2 (((80 - pricingExample.free_page_limit : Nat) : ℚ)
          * pricingExample.price_per_page) :=
  ⟨(C4_calculate_price_contract pricingExample 30).1 (by decide),
   (C4_calculate_price_contract pricingExample 80).2.1 (by decide)⟩

/-- C9: the minor-unit conversion is NOT lossless on the program's floats.
At the reachable configuration price_per_page = 0.29 (a binary64 float)
with free limit 50 and 51 pages, the pricing engine stores the float of
0.29 (whose two-decimal value — Python round(amount, 2) — is exactly 0.29,
so 100 times the Payment's amount is 29), yet int(amount * 100) sends 28
cents to the card provider: the binary64 product 0.29 * 100 rounds below
29 and truncation toward zero drops the cent.  This refutes exact equality
"for every amount the pricing engine can produce". -/
theorem C9_minor_unit_truncation_loses_cent :
    calculate_price_float float29Settings 51 = fl53 (29/100) ∧
    round2 (calculate_price_float float29Settings 51) = 29/100 ∧
    stripeAmountCents (calculate_price_float float29Settings 51) = 28 ∧
    ((28 : ℚ) ≠ 100 * (29/100)) := by
  have hp : calculate_price_float float29Settings 51 = float0_29 :=
    calculate_price_float_eval
  refine ⟨?_, ?_, ?_, by norm_num⟩
  · rw [hp]
    exact fl53_29_100.symm
  · rw [hp]
    exact round2_float0_29
  · rw [hp]
    unfold stripeAmountCents
    rw [fl53_float0_29_mul_100, ratTrunc_float_product]

/-- C1: the code has no terminal-state guard, so reconciliation is NOT a
no-op at terminal states: re-delivering a valid payment_intent.succeeded
event for payment 1 (already COMPLETED, paid at time 5 with provider
snapshot "orig") returns success but re-applies the side effects — paid_at
moves from 5 to the new time 9, updated_at is bumped, and provider_data is
overwritten with the second event's snapshot "evt_2". -/
theorem C1_terminal_reprocess_not_noop :
    (handle_webhook pricingExample envStripeEvent1 storeCompleted "stripe"
        "body" (some "sig") 9).2
      = .ok (.recon ⟨1, 7, true⟩) ∧
    (handle_webhook pricingExample envStripeEvent1 storeCompleted "stripe"
        "body" (some "sig") 9).1.payments
      = [{ paymentCompleted1 with
            paid_at := some 9
            updated_at := 9
            provider_data := some "evt_2" }] := by
  constructor <;>
    simp [handle_webhook, _handle_stripe_webhook, _process_successful_payment,
      reconToWebhook, wrapWebhookError, updatePayments, updateConversions,
      envStripeEvent1, envNull, storeCompleted, paymentCompleted1, conv7,
      List.find?]

/-- C2: the status machine is violated on a reachable trace: creating a
crypto intent for the unpaid 80-page conversion 9 with no coinbase
credential persists payment 1 as FAILED, and a later validly signed
payment_intent.succeeded webhook referencing payment 1 transitions that
FAILED (terminal) payment to COMPLETED — an operation moves a FAILED
Payment to COMPLETED, contradicting terminality. -/
theorem C2_failed_payment_reaches_completed :
    ((create_payment_intent noCryptoSettings envNull storeConv9 conv9
        "bitcoin" none 0 1).1.payments.map Payment.status = [.failed]) ∧
    ((handle_webhook noCryptoSettings envStripeEvent1
        (create_payment_intent noCryptoSettings envNull storeConv9 conv9
          "bitcoin" none 0 1).1
        "stripe" "body" (some "sig") 9).1.payments.map Payment.status
      = [.completed]) ∧
    (handle_webhook noCryptoSettings envStripeEvent1
        (create_payment_intent noCryptoSettings envNull storeConv9 conv9
          "bitcoin" none 0 1).1
        "stripe" "body" (some "sig") 9).2
      = .ok (.recon ⟨1, 9, true⟩) := by
  have hamt : calculate_price noCryptoSettings 80 = 3 :=
    calculate_price_eval_80 _ rfl rfl
  have h3 : ¬ ((3 : ℚ) ≤ 0) := by norm_num
  have hkey : noCryptoSettings.coinbase_api_key = none := rfl
  refine ⟨?_, ?_, ?_⟩ <;>
    simp [create_payment_intent, _process_crypto_payment, handle_webhook,
      _handle_stripe_webhook, _process_successful_payment, reconToWebhook,
      wrapWebhookError, updatePayments, updateConversions,
      PaymentMethod.fromString, envStripeEvent1, envNull, storeConv9, conv9,
      hamt, h3, hkey, List.find?]

/-- Computation rule: the boundary wrapper turns any raised error into
HTTPException 400 with the wrapped message. -/
theorem wrapWebhookError_error (st : Store) (e : AppError) :
    wrapWebhookError (st, .error e)
      = (st, .error (.http 400 ("Error processing webhook: " ++ e.message))) := rfl

/-- The boundary wrapper only ever returns a success or an HTTP 400. -/
theorem wrapWebhookError_cases (x : Store × Except AppError WebhookResult) :
    (∃ r, (wrapWebhookError x).2 = .ok r) ∨
    (∃ d, (wrapWebhookError x).2 = .error (.http 400 d)) := by
  obtain ⟨st, res⟩ := x
  cases res with
  | ok r => exact .inl ⟨r, rfl⟩
  | error e => exact .inr ⟨_, rfl⟩

/-- C10: when the Payment referenced by a successful provider event exists
but no Conversion matches its conversion_id, _process_successful_payment
still marks the Payment COMPLETED, leaves the conversions table untouched
(the missing Conversion is silently skipped), and returns a success result
with paid = true. -/
theorem C10_missing_conversion_silently_skipped (st : Store) (pid : Nat)
    (payment : Payment) (data : String) (now : Nat)
    (hfind : st.payments.find? (fun p => p.id = pid) = some payment)
    (hnoconv : ∀ c ∈ st.conversions, c.id ≠ payment.conversion_id) :
    (_process_successful_payment st (some pid) (some data) now).2
      = .ok ⟨pid, payment.conversion_id, true⟩ ∧
    (_process_successful_payment st (some pid) (some data) now).1.conversions
      = st.conversions ∧
    ∀ q ∈ (_process_successful_payment st (some pid) (some data) now).1.payments,
      q.id = pid → q.status = .completed := by
  refine ⟨?_, ?_, ?_⟩
  · simp only [_process_successful_payment, hfind]
  · simp only [_process_successful_payment, hfind]
    exact updateConversions_frozen _ _ _ hnoconv
  · simp only [_process_successful_payment, hfind]
    intro q hq hqid
    unfold updatePayments at hq
    obtain ⟨q0, hq0, hq0eq⟩ := List.mem_map.1 hq
    by_cases h : q0.id = pid
    · rw [if_pos h] at hq0eq
      rw [← hq0eq]
    · rw [if_neg h] at hq0eq
      rw [← hq0eq] at hqid
      exact absurd hqid h

/-- A PENDING payment whose conversion_id (42) matches no stored Conversion. -/
def pOrphan : Payment :=
  { paymentCompleted1 with id := 3, conversion_id := 42, status := .pending }

/-- Witness for C10: reconciling orphaned payment 3 in a store with an
empty conversions table completes the payment, reports paid = true, and
leaves the conversions table empty. -/
theorem C10_missing_conversion_silently_skipped_witness :
    (_process_successful_payment ⟨[pOrphan], []⟩ (some 3) (some "snap") 5).2
      = .ok ⟨3, 42, true⟩ ∧
    (_process_successful_payment ⟨[pOrphan], []⟩ (some 3) (some "snap") 5).1.conversions
      = ([] : List Conversion) ∧
    ∀ q ∈ (_process_successful_payment ⟨[pOrphan], []⟩ (some 3) (some "snap") 5).1.payments,
      q.id = 3 → q.status = .completed := by
  have h := C10_missing_conversion_silently_skipped ⟨[pOrphan], []⟩ 3 pOrphan "snap" 5
    (by simp [pOrphan, paymentCompleted1, List.find?])
    (fun c hc => absurd hc (List.not_mem_nil c))
  exact h

/-- C3: an inbound webhook whose signature does not verify (or whose
payload is malformed) is rejected with an HTTP 400 error and no Payment or
Conversion record is mutated, for both the stripe path (construct_event
does not return a parsed event) and the coinbase path (signature
verification fails, or the body is not valid JSON). -/
theorem C3_invalid_signature_no_mutation (s : Settings) (env : Env) (st : Store)
    (payload : String) (signature : Option String) (now : Nat) :
    ((∀ e, env.stripe_construct_event payload signature s.stripe_webhook_secret
        ≠ .ok e) →
      (handle_webhook s env st "stripe" payload signature now).1 = st ∧
      ∃ d, (handle_webhook s env st "stripe" payload signature now).2
        = .error (.http 400 d)) ∧
    (env.coinbase_verify payload signature s.coinbase_webhook_secret = false →
      (handle_webhook s env st "coinbase" payload signature now).1 = st ∧
      ∃ d, (handle_webhook s env st "coinbase" payload signature now).2
        = .error (.http 400 d)) ∧
    (env.coinbase_json payload = none →
      (handle_webhook s env st "coinbase" payload signature now).1 = st ∧
      ∃ d, (handle_webhook s env st "coinbase" payload signature now).2
        = .error (.http 400 d)) := by
  have hs : handle_webhook s env st "stripe" payload signature now
      = wrapWebhookError (_handle_stripe_webhook s env st payload signature now) := by
    unfold handle_webhook
    rw [if_pos rfl]
  have hc : handle_webhook s env st "coinbase" payload signature now
      = wrapWebhookError (_handle_coinbase_webhook s env st payload signature now) := by
    unfold handle_webhook
    rw [if_neg (by decide), if_pos rfl]
  refine ⟨fun hna => ?_, fun hv => ?_, fun hj => ?_⟩
  · cases h : env.stripe_construct_event payload signature s.stripe_webhook_secret with
    | ok e => exact absurd h (hna e)
    | valueErr m =>
      have hin : _handle_stripe_webhook s env st payload signature now
          = (st, .error (.http 400 ("Invalid payload: " ++ m))) := by
        unfold _handle_stripe_webhook
        rw [h]
      rw [hs, hin, wrapWebhookError_error]
      exact ⟨rfl, _, rfl⟩
    | sigErr m =>
      have hin : _handle_stripe_webhook s env st payload signature now
          = (st, .error (.http 400 ("Invalid signature: " ++ m))) := by
        unfold _handle_stripe_webhook
        rw [h]
      rw [hs, hin, wrapWebhookError_error]
      exact ⟨rfl, _, rfl⟩
  · cases hj2 : env.coinbase_json payload with
    | none =>
      have hin : _handle_coinbase_webhook s env st payload signature now
          = (st, .error (.http 400 "Invalid JSON payload")) := by
        unfold _handle_coinbase_webhook
        rw [hj2]
      rw [hc, hin, wrapWebhookError_error]
      exact ⟨rfl, _, rfl⟩
    | some body =>
      have hin : _handle_coinbase_webhook s env st payload signature now
          = (st, .error (.http 400 "Webhook verification failed")) := by
        unfold _handle_coinbase_webhook
        rw [hj2]
        simp [hv]
      rw [hc, hin, wrapWebhookError_error]
      exact ⟨rfl, _, rfl⟩
  · have hin : _handle_coinbase_webhook s env st payload signature now
        = (st, .error (.http 400 "Invalid JSON payload")) := by
      unfold _handle_coinbase_webhook
      rw [hj]
    rw [hc, hin, wrapWebhookError_error]
    exact ⟨rfl, _, rfl⟩

/-- Witness for C3: with an environment whose signature checks all fail
(construct_event raises SignatureVerificationError, coinbase verification
returns false, the body does not decode), both provider paths reject with
HTTP 400 and the store is unchanged. -/
theorem C3_invalid_signature_no_mutation_witness :
    ((handle_webhook pricingExample envNull storeConv9 "stripe" "p" (some "sg") 0).1
        = storeConv9 ∧
      ∃ d, (handle_webhook pricingExample envNull storeConv9 "stripe" "p" (some "sg") 0).2
        = .error (.http 400 d)) ∧
    ((handle_webhook pricingExample envNull storeConv9 "coinbase" "p" (some "sg") 0).1
        = storeConv9 ∧
      ∃ d, (handle_webhook pricingExample envNull storeConv9 "coinbase" "p" (some "sg") 0).2
        = .error (.http 400 d)) := by
  have h := C3_invalid_signature_no_mutation pricingExample envNull storeConv9 "p" (some "sg") 0
  exact ⟨h.1 (fun e he => by simp [envNull] at he), h.2.1 rfl⟩

/-- C8: for every input — any provider name, payload, signature and store —
handle_webhook never surfaces anything but a success or an HTTP 400 error:
every exception raised during handling is caught at the boundary and
re-raised as a 400-class error. -/
theorem C8_webhook_never_500 (s : Settings) (env : Env) (st : Store)
    (provider : String) (payload : String) (signature : Option String) (now : Nat) :
    (∃ r, (handle_webhook s env st provider payload signature now).2 = .ok r) ∨
    (∃ d, (handle_webhook s env st provider payload signature now).2
      = .error (.http 400 d)) := by
  unfold handle_webhook
  exact wrapWebhookError_cases _

/-- Members of a conversions table updated by setting the paid flag on a
given id: every row carrying that id is paid afterwards. -/
theorem mem_updateConversions_set_paid (l : List Conversion) (cid : Nat) :
    ∀ c ∈ updateConversions l cid (fun c => { c with is_paid := true }),
      c.id = cid → c.is_paid = true := by
  intro c hc hcid
  unfold updateConversions at hc
  obtain ⟨c0, hc0, hc0eq⟩ := List.mem_map.1 hc
  by_cases h : c0.id = cid
  · rw [if_pos h] at hc0eq
    rw [← hc0eq]
  · rw [if_neg h] at hc0eq
    rw [← hc0eq] at hcid
    exact absurd hcid h

/-- A member of an id-targeted row update over base ++ [payment] that is
not from base is the updated new row; its amount fields are preserved by
the update, hence positive when the new row's amounts are. -/
theorem pos_of_mem_update_append (base : List Payment) (payment : Payment)
    (pid : Nat) (f : Payment → Payment) (hid : payment.id = pid)
    (hfresh : ∀ q ∈ base, q.id ≠ pid)
    (hf : (f payment).amount = payment.amount
      ∧ (f payment).amount_usd = payment.amount_usd)
    (hamt : 0 < payment.amount) (hamtu : 0 < payment.amount_usd) :
    ∀ x ∈ updatePayments (base ++ [payment]) pid f, x ∉ base →
      0 < x.amount ∧ 0 < x.amount_usd := by
  intro x hx hnot
  rw [updatePayments_append base payment pid f hid hfresh] at hx
  rcases List.mem_append.1 hx with h | h
  · exact absurd h hnot
  · rw [List.mem_singleton] at h
    subst h
    exact ⟨hf.1 ▸ hamt, hf.2 ▸ hamtu⟩

/-- Any Payment row that exists after create_payment_intent but was not in
the prior store carries the computed price (positive, since the zero branch
creates no row) as both amount and amount_usd. -/
theorem create_intent_new_payment_pos (s : Settings) (env : Env) (st : Store)
    (conversion : Conversion) (method : String) (uid : Option Nat)
    (now new_pid : Nat) (hfresh : ∀ p ∈ st.payments, p.id ≠ new_pid) :
    ∀ p ∈ (create_payment_intent s env st conversion method uid now new_pid).1.payments,
      p ∉ st.payments → 0 < p.amount ∧ 0 < p.amount_usd := by
  intro p hp hnot
  unfold create_payment_intent at hp
  by_cases hpaid : conversion.is_paid = true
  · rw [if_pos hpaid] at hp
    exact absurd hp hnot
  · rw [if_neg hpaid] at hp
    by_cases hle : calculate_price s conversion.page_count ≤ 0
    · rw [if_pos hle] at hp
      exact absurd hp hnot
    · rw [if_neg hle] at hp
      have hpos : (0 : ℚ) < calculate_price s conversion.page_count := not_le.mp hle
      cases hms : PaymentMethod.fromString method with
      | none =>
        rw [hms] at hp
        exact absurd hp hnot
      | some pm =>
        rw [hms] at hp
        cases pm with
        | credit_card =>
          simp only [_process_credit_card_payment] at hp
          cases hsc : env.stripe_create
              (stripeAmountCents (calculate_price s conversion.page_count))
              ("USD" : String).toLower with
          | ok intent =>
            rw [hsc] at hp
            exact pos_of_mem_update_append st.payments _ new_pid _ rfl hfresh
              ⟨rfl, rfl⟩ hpos hpos p hp hnot
          | exc m =>
            rw [hsc] at hp
            exact pos_of_mem_update_append st.payments _ new_pid _ rfl hfresh
              ⟨rfl, rfl⟩ hpos hpos p hp hnot
        | usdt =>
          simp only [_process_crypto_payment] at hp
          cases hk : s.coinbase_api_key with
          | none =>
            rw [hk] at hp
            exact pos_of_mem_update_append st.payments _ new_pid _ rfl hfresh
              ⟨rfl, rfl⟩ hpos hpos p hp hnot
          | some k =>
            rw [hk] at hp
            cases hcc : env.coinbase_create (calculate_price s conversion.page_count)
                ("USD" : String) with
            | ok charge =>
              rw [hcc] at hp
              exact pos_of_mem_update_append st.payments _ new_pid _ rfl hfresh
                ⟨rfl, rfl⟩ hpos hpos p hp hnot
            | exc m =>
              rw [hcc] at hp
              exact pos_of_mem_update_append st.payments _ new_pid _ rfl hfresh
                ⟨rfl, rfl⟩ hpos hpos p hp hnot
        | btc =>
          simp only [_process_crypto_payment] at hp
          cases hk : s.coinbase_api_key with
          | none =>
            rw [hk] at hp
            exact pos_of_mem_update_append st.payments _ new_pid _ rfl hfresh
              ⟨rfl, rfl⟩ hpos hpos p hp hnot
          | some k =>
            rw [hk] at hp
            cases hcc : env.coinbase_create (calculate_price s conversion.page_count)
                ("USD" : String) with
            | ok charge =>
              rw [hcc] at hp
              exact pos_of_mem_update_append st.payments _ new_pid _ rfl hfresh
                ⟨rfl, rfl⟩ hpos hpos p hp hnot
            | exc m =>
              rw [hcc] at hp
              exact pos_of_mem_update_append st.payments _ new_pid _ rfl hfresh
                ⟨rfl, rfl⟩ hpos hpos p hp hnot
        | eth =>
          simp only [_process_crypto_payment] at hp
          cases hk : s.coinbase_api_key with
          | none =>
            rw [hk] at hp
            exact pos_of_mem_update_append st.payments _ new_pid _ rfl hfresh
              ⟨rfl, rfl⟩ hpos hpos p hp hnot
          | some k =>
            rw [hk] at hp
            cases hcc : env.coinbase_create (calculate_price s conversion.page_count)
                ("USD" : String) with
            | ok charge =>
              rw [hcc] at hp
              exact pos_of_mem_update_append st.payments _ new_pid _ rfl hfresh
                ⟨rfl, rfl⟩ hpos hpos p hp hnot
            | exc m =>
              rw [hcc] at hp
              exact pos_of_mem_update_append st.payments _ new_pid _ rfl hfresh
                ⟨rfl, rfl⟩ hpos hpos p hp hnot
        | other_crypto =>
          simp only [_process_crypto_payment] at hp
          cases hk : s.coinbase_api_key with
          | none =>
            rw [hk] at hp
            exact pos_of_mem_update_append st.payments _ new_pid _ rfl hfresh
              ⟨rfl, rfl⟩ hpos hpos p hp hnot
          | some k =>
            rw [hk] at hp
            cases hcc : env.coinbase_create (calculate_price s conversion.page_count)
                ("USD" : String) with
            | ok charge =>
              rw [hcc] at hp
              exact pos_of_mem_update_append st.payments _ new_pid _ rfl hfresh
                ⟨rfl, rfl⟩ hpos hpos p hp hnot
            | exc m =>
              rw [hcc] at hp
              exact pos_of_mem_update_append st.payments _ new_pid _ rfl hfresh
                ⟨rfl, rfl⟩ hpos hpos p hp hnot

/-- C5: for an unpaid Conversion whose computed price is 0,
create_payment_intent marks the Conversion paid, persists it, returns the
no-payment-needed success result, and no Payment row is added; and in
general (second conjunct) every Payment row created by any call — with a
fresh primary key — has strictly positive amount and amount_usd. -/
theorem C5_zero_price_no_payment_row (s : Settings) (env : Env) (st : Store)
    (conversion : Conversion) (method : String) (uid : Option Nat)
    (now new_pid : Nat) (hunpaid : conversion.is_paid = false)
    (hzero : calculate_price s conversion.page_count = 0) :
    ((create_payment_intent s env st conversion method uid now new_pid).1.payments
        = st.payments ∧
      (create_payment_intent s env st conversion method uid now new_pid).2
        = .ok .noPayment ∧
      ∀ c ∈ (create_payment_intent s env st conversion method uid now new_pid).1.conversions,
        c.id = conversion.id → c.is_paid = true) ∧
    (∀ (s' : Settings) (env' : Env) (st' : Store) (conv' : Conversion)
        (m' : String) (uid' : Option Nat) (now' pid' : Nat),
      (∀ p ∈ st'.payments, p.id ≠ pid') →
      ∀ p ∈ (create_payment_intent s' env' st' conv' m' uid' now' pid').1.payments,
        p ∉ st'.payments → 0 < p.amount ∧ 0 < p.amount_usd) := by
  have hb : ¬ (conversion.is_paid = true) := by
    rw [hunpaid]
    exact Bool.false_ne_true
  have hle : calculate_price s conversion.page_count ≤ 0 := le_of_eq hzero
  refine ⟨⟨?_, ?_, ?_⟩,
    fun s' env' st' conv' m' uid' now' pid' hfresh =>
      create_intent_new_payment_pos s' env' st' conv' m' uid' now' pid' hfresh⟩
  · unfold create_payment_intent
    rw [if_neg hb, if_pos hle]
  · unfold create_payment_intent
    rw [if_neg hb, if_pos hle]
  · unfold create_payment_intent
    rw [if_neg hb, if_pos hle]
    exact mem_updateConversions_set_paid st.conversions conversion.id

/-- An unpaid 30-page conversion (inside the free limit). -/
def convSmall : Conversion := ⟨11, "small.docx", 30, false⟩

/-- Witness for C5: the 30-page conversion prices at 0, the call adds no
payment row, returns the no-payment result, marks conversion 11 paid, and
the positivity consequence holds for all calls. -/
theorem C5_zero_price_no_payment_row_witness :
    ((create_payment_intent pricingExample envNull ⟨[], [convSmall]⟩ convSmall
          "credit_card" none 0 1).1.payments = ([] : List Payment) ∧
      (create_payment_intent pricingExample envNull ⟨[], [convSmall]⟩ convSmall
          "credit_card" none 0 1).2 = .ok .noPayment ∧
      ∀ c ∈ (create_payment_intent pricingExample envNull ⟨[], [convSmall]⟩ convSmall
          "credit_card" none 0 1).1.conversions,
        c.id = convSmall.id → c.is_paid = true) ∧
    (∀ (s' : Settings) (env' : Env) (st' : Store) (conv' : Conversion)
        (m' : String) (uid' : Option Nat) (now' pid' : Nat),
      (∀ p ∈ st'.payments, p.id ≠ pid') →
      ∀ p ∈ (create_payment_intent s' env' st' conv' m' uid' now' pid').1.payments,
        p ∉ st'.payments → 0 < p.amount ∧ 0 < p.amount_usd) :=
  C5_zero_price_no_payment_row pricingExample envNull ⟨[], [convSmall]⟩ convSmall
    "credit_card" none 0 1 rfl (by simp [calculate_price, convSmall, pricingExample])

/-- C6 counterexample: with no coinbase credential configured, a bitcoin
intent for the unpaid 80-page conversion 9 fails with the 500-class
not-configured error, yet a Payment row IS persisted (one FAILED row) —
refuting the claim that the store holds no new Payment row after the call. -/
theorem C6_crypto_unconfigured_counterexample :
    (create_payment_intent noCryptoSettings envNull storeConv9 conv9
        "bitcoin" none 0 1).1.payments.length = 1 ∧
    ((create_payment_intent noCryptoSettings envNull storeConv9 conv9
        "bitcoin" none 0 1).1.payments.map Payment.status = [.failed]) ∧
    (∃ msg, (create_payment_intent noCryptoSettings envNull storeConv9 conv9
        "bitcoin" none 0 1).2 = .error (.http 500 msg)) := by
  have hamt : calculate_price noCryptoSettings 80 = 3 :=
    calculate_price_eval_80 _ rfl rfl
  have h3 : ¬ ((3 : ℚ) ≤ 0) := by norm_num
  have hkey : noCryptoSettings.coinbase_api_key = none := rfl
  refine ⟨?_, ?_, ?_⟩ <;>
    simp [create_payment_intent, _process_crypto_payment, updatePayments,
      PaymentMethod.fromString, storeConv9, conv9, hamt, h3, hkey]

/-- C6 (amended): with a crypto method selected and no crypto provider
credential configured, create_payment_intent fails with the 500-class
not-configured error, but the Payment created before dispatch is persisted
with status FAILED (the adapter-failure policy of the factory): the store
gains exactly one FAILED row carrying the computed amount. -/
theorem C6_crypto_unconfigured_failed_row (s : Settings) (env : Env) (st : Store)
    (conversion : Conversion) (method : String) (uid : Option Nat)
    (now new_pid : Nat) (pm : PaymentMethod)
    (hkey : s.coinbase_api_key = none)
    (hunpaid : conversion.is_paid = false)
    (hpos : ¬ calculate_price s conversion.page_count ≤ 0)
    (hms : PaymentMethod.fromString method = some pm)
    (hcc : pm ≠ .credit_card)
    (hfresh : ∀ p ∈ st.payments, p.id ≠ new_pid) :
    (∃ p : Payment,
      (create_payment_intent s env st conversion method uid now new_pid).1.payments
        = st.payments ++ [p] ∧
      p.status = .failed ∧ p.id = new_pid ∧ p.conversion_id = conversion.id ∧
      p.amount = calculate_price s conversion.page_count) ∧
    (∃ msg, (create_payment_intent s env st conversion method uid now new_pid).2
      = .error (.http 500 msg)) := by
  have hb : ¬ (conversion.is_paid = true) := by
    rw [hunpaid]
    exact Bool.false_ne_true
  unfold create_payment_intent
  rw [if_neg hb, if_neg hpos, hms]
  cases pm with
  | credit_card => exact absurd rfl hcc
  | usdt =>
    simp only [_process_crypto_payment, hkey]
    rw [updatePayments_append st.payments _ new_pid _ rfl hfresh]
    exact ⟨⟨_, rfl, rfl, rfl, rfl, rfl⟩, _, rfl⟩
  | btc =>
    simp only [_process_crypto_payment, hkey]
    rw [updatePayments_append st.payments _ new_pid _ rfl hfresh]
    exact ⟨⟨_, rfl, rfl, rfl, rfl, rfl⟩, _, rfl⟩
  | eth =>
    simp only [_process_crypto_payment, hkey]
    rw [updatePayments_append st.payments _ new_pid _ rfl hfresh]
    exact ⟨⟨_, rfl, rfl, rfl, rfl, rfl⟩, _, rfl⟩
  | other_crypto =>
    simp only [_process_crypto_payment, hkey]
    rw [updatePayments_append st.payments _ new_pid _ rfl hfresh]
    exact ⟨⟨_, rfl, rfl, rfl, rfl, rfl⟩, _, rfl⟩

/-- Witness for C6 (amended): the concrete bitcoin call with no coinbase
credential produces exactly one appended FAILED row with the computed
amount, and a 500-class error. -/
theorem C6_crypto_unconfigured_failed_row_witness :
    (∃ p : Payment,
      (create_payment_intent noCryptoSettings envNull storeConv9 conv9
          "bitcoin" none 0 1).1.payments = ([] : List Payment) ++ [p] ∧
      p.status = .failed ∧ p.id = 1 ∧ p.conversion_id = conv9.id ∧
      p.amount = calculate_price noCryptoSettings conv9.page_count) ∧
    (∃ msg, (create_payment_intent noCryptoSettings envNull storeConv9 conv9
        "bitcoin" none 0 1).2 = .error (.http 500 msg)) :=
  C6_crypto_unconfigured_failed_row noCryptoSettings envNull storeConv9 conv9
    "bitcoin" none 0 1 .btc rfl rfl
    (by
      have hamt : calculate_price noCryptoSettings 80 = 3 :=
        calculate_price_eval_80 _ rfl rfl
      show ¬ calculate_price noCryptoSettings 80 ≤ 0
      rw [hamt]
      norm_num)
    rfl (by simp) (fun p hp => absurd hp (List.not_mem_nil p))

/-- C7 counterexample: for the unsupported method string "paypal" (unpaid
80-page conversion, so the pricing branch is passed), the call aborts with
an uncaught ValueError from the enum lookup — not a 400-class
ValidationError — though indeed no Payment row is persisted. -/
theorem C7_invalid_method_counterexample :
    (create_payment_intent pricingExample envNull storeConv9 conv9
        "paypal" none 0 1)
      = (storeConv9, .error (.valueError "'paypal' is not a valid PaymentMethod")) ∧
    ¬ ∃ c d, (create_payment_intent pricingExample envNull storeConv9 conv9
        "paypal" none 0 1).2 = .error (.http c d) := by
  have hamt : calculate_price pricingExample 80 = 3 :=
    calculate_price_eval_80 _ rfl rfl
  have h3 : ¬ ((3 : ℚ) ≤ 0) := by norm_num
  constructor
  · simp [create_payment_intent, PaymentMethod.fromString, storeConv9, conv9,
      hamt, h3]
  · rintro ⟨c, d, hd⟩
    simp [create_payment_intent, PaymentMethod.fromString, storeConv9, conv9,
      hamt, h3] at hd

/-- C7 (amended): an unsupported payment method value on an unpaid,
positively priced conversion aborts create_payment_intent with an uncaught
Python ValueError (surfaced as a 500-class server error, not a 400-class
ValidationError), raised by the enum lookup while constructing the Payment
record — before any Payment row is persisted, so the store is unchanged. -/
theorem C7_invalid_method_value_error (s : Settings) (env : Env) (st : Store)
    (conversion : Conversion) (method : String) (uid : Option Nat)
    (now new_pid : Nat)
    (hunpaid : conversion.is_paid = false)
    (hpos : ¬ calculate_price s conversion.page_count ≤ 0)
    (hms : PaymentMethod.fromString method = none) :
    create_payment_intent s env st conversion method uid now new_pid
      = (st, .error (.valueError
          ("'" ++ method ++ "' is not a valid PaymentMethod"))) := by
  have hb : ¬ (conversion.is_paid = true) := by
    rw [hunpaid]
    exact Bool.false_ne_true
  unfold create_payment_intent
  rw [if_neg hb, if_neg hpos, hms]

/-- Witness for C7 (amended): the concrete "paypal" call returns the
uncaught ValueError with the store untouched. -/
theorem C7_invalid_method_value_error_witness :
    create_payment_intent pricingExample envNull storeConv9 conv9
        "paypal" none 0 1
      = (storeConv9, .error (.valueError
          "'paypal' is not a valid PaymentMethod")) :=
  C7_invalid_method_value_error pricingExample envNull storeConv9 conv9
    "paypal" none 0 1 rfl
    (by
      have hamt : calculate_price pricingExample 80 = 3 :=
        calculate_price_eval_80 _ rfl rfl
      show ¬ calculate_price pricingExample 80 ≤ 0
      rw [hamt]
      norm_num)
    rfl

end PaymentModel
